import Mathlib

/-! Verification development for the Scopus author-data repository, a shallow
embedding of its three Python scripts: the Streamlit app (`some.py`), the
journal-list script (`scopus.py`) and the single-document SQLite pipeline
(`scopus2.py`).  Network calls are modelled by passing the server's behaviour
as a function argument; Python exceptions become explicit error values. -/

/-- Python-level exceptions that the modelled code can raise. -/
inductive PyErr : Type
  | valueError
  | nameError
  | keyError
  | attributeError
deriving Repr, DecidableEq

/-- Truthiness of a Python string-or-None value, as in `if x:` (falsy means
None or the empty string). -/
def pyTruthy : Option String → Bool
  | some s => !(s == "")
  | none => false

/-- Python `a or b` on two string-or-None values: `b` when `a` is falsy. -/
def pyOrOpt (a b : Option String) : Option String :=
  match a with
  | some s => if s == "" then b else some s
  | none => b

/-- Python `a or b` where the final fallback is a plain string, as in the
source's chains `x.get(k) or y.get(k) or 'N/A'`. -/
def pyOr (a : Option String) (b : String) : String :=
  match a with
  | some s => if s == "" then b else s
  | none => b

/-- Whitespace stripped by Python `int(str)` before parsing. -/
def pySpace (c : Char) : Bool :=
  c == ' ' || c == '\t' || c == '\n' || c == '\r'

/-- Value of a nonempty all-digit character sequence, else `none`. -/
def digitsVal (cs : List Char) : Option Nat :=
  if cs.isEmpty then none
  else if cs.all (fun c => c.isDigit) then
    some (cs.foldl (fun n c => 10 * n + (c.toNat - 48)) 0)
  else none

/-- Model of Python `int(s)` on a string: optional surrounding whitespace, an
optional sign, then decimal digits; anything else raises `ValueError`
(`none` here).  Underscore separators and non-ASCII digits are not modelled;
the development only evaluates this on plain ASCII inputs. -/
def pyToInt (s : String) : Option Int :=
  let cs := ((s.data.dropWhile pySpace).reverse.dropWhile pySpace).reverse
  match cs with
  | [] => none
  | c :: rest =>
    if c == '-' then (digitsVal rest).map (fun n => -(n : Int))
    else if c == '+' then (digitsVal rest).map (fun n => (n : Int))
    else (digitsVal cs).map (fun n => (n : Int))

/-- A raw search entry (`search-results.entry[*]`) restricted to the keys the
source reads; `none` is a missing key.  `frar_eid` flattens the fallback
chain `entry.get('full-abstract-retrieval', ...).get('eid')`: it is `none`
when either level is missing. -/
structure RawEntry : Type where
  eid : Option String
  frar_eid : Option String
  dc_title : Option String
  publicationName : Option String
  doi : Option String
  coverDate : Option String
  citedby_count : Option String
  subtypeDescription : Option String
  subtype : Option String
deriving Repr, DecidableEq

def emptyRawEntry : RawEntry := ⟨none, none, none, none, none, none, none, none, none⟩

/-- One author object of the abstract response, with the keys read by either
script: `ce:indexed-name`, `ce:given-name`, `ce:surname`, and the two flag
spellings `@corresponding` (read by some.py) and `@correspondence` (read by
scopus2.py). -/
structure Author : Type where
  indexed_name : Option String
  given_name : Option String
  surname : Option String
  corresponding : Option String
  correspondence : Option String
deriving Repr, DecidableEq

/-- The `coredata` object of the abstract response, restricted to the keys
read by the two scripts.  `citedby_count` keeps the JSON value; scopus2.py
stores it as-is with default 0 and never converts it. -/
structure Coredata : Type where
  dc_title : Option String
  dc_description : Option String
  description : Option String
  subtypeDescription : Option String
  aggregationType : Option String
  publicationName : Option String
  doi : Option String
  coverDate : Option String
  citedby_count : Option Int
deriving Repr, DecidableEq

def emptyCoredata : Coredata := ⟨none, none, none, none, none, none, none, none, none⟩

/-- The `abstracts-retrieval-response` object: its `coredata` and the author
list.  `authors_author` flattens `.get('authors', ...).get('author', [])`;
absence at either level is `none`. -/
structure DetailRecord : Type where
  coredata : Option Coredata
  authors_author : Option (List Author)
deriving Repr, DecidableEq

/-- The empty detail record, the Python literal dict with no keys. -/
def emptyDetail : DetailRecord := ⟨none, none⟩

/-- A whole abstract-endpoint response body: the wrapper object that may or
may not carry the `abstracts-retrieval-response` key. -/
structure AbsData : Type where
  abstracts_retrieval_response : Option DetailRecord
deriving Repr, DecidableEq

/-- One page of the Scopus search response as consumed by the pagination
loop: the entry list plus the three opensearch counters after the source's
`int(...)` conversion (a missing counter reads as 0).  `α` is the entry
type, opaque to the loop. -/
structure Page (α : Type) : Type where
  entries : List α
  totalResults : Int
  itemsPerPage : Int
  startIndex : Int
deriving Repr, DecidableEq

/-- The pagination loop of `search_all_documents` (some.py lines 63-93).
`server` maps a start offset to the page the request yields, or to a
transport/HTTP error (`requests.exceptions.RequestException`), which the
source catches and turns into an early break.  State: remaining `fuel`
(the loop has no intrinsic bound, so recursion is fuel-indexed; `none`
means the fuel ran out before the loop finished), current `start`, the
latest server-declared `totalResults` (initialised to 1 by the source to
force the first iteration), accumulated entries, and the list of offsets
requested so far.  Returns the accumulated entries and all requested
offsets. -/
def searchLoop {α : Type} (server : Int → Except Unit (Page α)) :
    Nat → Int → Int → List α → List Int → Option (List α × List Int)
  | 0, _, _, _, _ => none
  | fuel + 1, start, totalResults, allEntries, requested =>
    if start < totalResults then
      match server start with
      | Except.error _ => some (allEntries, requested ++ [start])
      | Except.ok page =>
        if page.startIndex + page.itemsPerPage < page.totalResults then
          searchLoop server fuel (start + page.itemsPerPage) page.totalResults
            (allEntries ++ page.entries) (requested ++ [start])
        else
          some (allEntries ++ page.entries, requested ++ [start])
    else
      some (allEntries, requested)

/-- `search_all_documents(scopus_id)` (some.py lines 44-93): empty result for
a falsy id without touching the network, otherwise the pagination loop from
offset 0 with `total_results` initialised to 1. -/
def search_all_documents {α : Type} (scopus_id : String)
    (server : Int → Except Unit (Page α)) (fuel : Nat) :
    Option (List α × List Int) :=
  if scopus_id == "" then some ([], []) else searchLoop server fuel 0 1 [] []

/-- A well-behaved server with arbitrary page contents: at offset `s` it
answers entries `ents s` and echoes `totalResults = T`, `itemsPerPage = P`,
`startIndex = s`. -/
def okServer {α : Type} (ents : Int → List α) (T P s : Int) : Except Unit (Page α) :=
  Except.ok ⟨ents s, T, P, s⟩

/-- `okServer` with a transport/HTTP failure injected at offset `E`. -/
def errServer {α : Type} (ents : Int → List α) (T P E s : Int) : Except Unit (Page α) :=
  if s = E then Except.error () else okServer ents T P s

/-- A consistent server for a result set of `T` entries served in pages of
`P`: page at offset `s` carries the entry indices `s, s+1, ...` (so the full
set is `0, ..., T-1`), truncated at `T`, with correct counters. -/
def goodServer (T P : Nat) (s : Int) : Except Unit (Page Nat) :=
  Except.ok ⟨List.range' s.toNat (min P (T - s.toNat)), (T : Int), (P : Int), s⟩

/-- Number of pages needed for `n` entries in pages of `P`, i.e. the ceiling
of `n / P`. -/
def pagesFor (n P : Nat) : Nat := (n + P - 1) / P

/-- An author record of the h-index endpoint response
(`author-retrieval-response[0]`): only its optional `h-index` value. -/
structure HAuthor : Type where
  h_index : Option String
deriving Repr, DecidableEq

/-- The h-index endpoint response body: the optional
`author-retrieval-response` list. -/
structure HResponse : Type where
  author_retrieval_response : Option (List HAuthor)
deriving Repr, DecidableEq

/-- `get_author_h_index(scopus_id)` (some.py lines 20-40).  Returns the
fetched value together with the number of requests issued (0 or 1): a falsy
id returns the placeholder without any request; a transport/HTTP error is
caught and also yields the placeholder. -/
def get_author_h_index (scopus_id : String) (resp : Except Unit HResponse) :
    String × Nat :=
  if scopus_id == "" then ("N/A", 0)
  else
    match resp with
    | Except.error _ => ("N/A", 1)
    | Except.ok data =>
      match data.author_retrieval_response with
      | some (a :: _) => (a.h_index.getD "N/A", 1)
      | _ => ("N/A", 1)

/-- Outcome of the abstract-detail request as seen by
`get_abstract_details`: a transport/HTTP error or bad status (a
`RequestException`, caught); a body that is not valid JSON (`.json()`
raises `requests.exceptions.JSONDecodeError`, a `RequestException`
subclass, also caught); a body that is valid JSON whose top level is not an
object (`.json()` returns e.g. a list, so the subsequent `.get` raises an
uncaught `AttributeError`); or a JSON object. -/
inductive FetchOutcome : Type
  | reqError
  | jsonError
  | nonObject
  | object (data : AbsData)
deriving Repr, DecidableEq

/-- `get_abstract_details(eid)` (some.py lines 97-112): empty record for a
falsy eid; on a caught error the empty record; on an object body the value
under `abstracts-retrieval-response` with an empty-dict default; on a
non-object JSON body the `AttributeError` from `.get` propagates. -/
def get_abstract_details (eid : String) (resp : FetchOutcome) :
    Except PyErr DetailRecord :=
  if eid == "" then Except.ok emptyDetail
  else
    match resp with
    | FetchOutcome.reqError => Except.ok emptyDetail
    | FetchOutcome.jsonError => Except.ok emptyDetail
    | FetchOutcome.nonObject => Except.error PyErr.attributeError
    | FetchOutcome.object data => Except.ok (data.abstracts_retrieval_response.getD emptyDetail)

/-- Python `str.lower()`, character by character (ASCII case folding
suffices for the flag tokens compared here). -/
def pyLower (s : String) : String := String.mk (s.data.map Char.toLower)

/-- The corresponding-author scan of some.py lines 182-185: the
`ce:indexed-name` (default placeholder) of the first author whose
`@corresponding` value, defaulted to the empty string and lowercased,
equals `'true'`; the placeholder when none matches. -/
def corresponding_author_of : List Author → String
  | [] => "N/A"
  | a :: rest =>
    if pyLower (a.corresponding.getD "") == "true" then a.indexed_name.getD "N/A"
    else corresponding_author_of rest

/-- The merged per-entry record built by the app's normalization loop: the
summary table row (some.py lines 188-196) together with the extra fields of
`full_documents_data` (lines 199-213). -/
structure FullDoc : Type where
  title : String
  journalName : String
  publishedDate : String
  citations : Int
  docType : String
  subtype : String
  doi : String
  eid : Option String
  abstract : String
  allAuthorsRaw : List Author
  authorNamesStr : String
  authorsList : List String
  firstAuthor : String
  correspondingAuthor : String
deriving Repr, DecidableEq

/-- Per-entry body of the app's normalization loop (some.py lines 151-213)
for one entry and the detail record fetched for it.  `staleAuthorNames` is
the value, if any, that the Python variable `author_names_list` still holds
from an earlier iteration: the source assigns it only inside `if eid:`, yet
reads it unconditionally when building the full record, so an entry without
a usable eid raises `NameError` when it is the first such entry (`none`
here) and silently reuses the previous entry's list otherwise.  The
`int(cited_by)` conversion of line 192 runs first and raises `ValueError`
on a non-numeric `citedby-count` value. -/
def normalize_entry (staleAuthorNames : Option (List String))
    (entry : RawEntry) (abstract_data : DetailRecord) : Except PyErr FullDoc :=
  let eid := pyOrOpt entry.eid entry.frar_eid
  let title := entry.dc_title.getD "N/A"
  let source := entry.publicationName.getD "N/A"
  let doi := entry.doi.getD "N/A"
  let date := entry.coverDate.getD "N/A"
  let cited_by := entry.citedby_count.getD "0"
  let doc_type := entry.subtypeDescription.getD "N/A"
  let subtype := entry.subtype.getD "N/A"
  let st :=
    if pyTruthy eid then
      let cd := abstract_data.coredata.getD emptyCoredata
      let abstract_text := pyOr cd.dc_description (pyOr cd.description "N/A")
      let authors_raw := abstract_data.authors_author.getD []
      let author_names_list := authors_raw.map (fun a => a.indexed_name.getD "N/A")
      let author_names_str :=
        if author_names_list.isEmpty then "N/A" else String.intercalate ", " author_names_list
      let first_author := (author_names_list.head?).getD "N/A"
      (abstract_text, authors_raw, author_names_str, first_author,
        corresponding_author_of authors_raw, some author_names_list)
    else ("N/A", ([] : List Author), "N/A", "N/A", "N/A", staleAuthorNames)
  match pyToInt cited_by with
  | none => Except.error PyErr.valueError
  | some citations =>
    match st.2.2.2.2.2 with
    | none => Except.error PyErr.nameError
    | some anl =>
      Except.ok ⟨title, source, date, citations, doc_type, subtype, doi, eid,
        st.1, st.2.1, st.2.2.1, anl, st.2.2.2.1, st.2.2.2.2.1⟩

/-- A table row of `documents_data_for_table` (some.py lines 188-196); field
names follow the displayed column labels. -/
structure TableRow : Type where
  Title : String
  JournalName : String
  PublishedDate : String
  Citations : Int
  DOI : String
  DocumentType : String
  EID : Option String
deriving Repr, DecidableEq

/-- Ascending comparison on the sort key of the table sink. -/
def byCitations (a b : TableRow) : Prop := a.Citations ≤ b.Citations

instance : DecidableRel byCitations := fun a b => Int.decLe a.Citations b.Citations

instance : IsTotal TableRow byCitations := ⟨fun a b => Int.le_total a.Citations b.Citations⟩

instance : IsTrans TableRow byCitations := ⟨fun _ _ _ h1 h2 => le_trans h1 h2⟩

/-- `df_table.sort_values(by='Citations', ascending=False)` (some.py line
225).  pandas sorts a single-column key with `nargsort`: it argsorts the
column ascending and, for a descending sort, reverses the whole indexer.
The default kind `'quicksort'` delegates to numpy's introsort, which runs a
plain insertion sort below its small-partition cutoff, so at the batch
sizes considered here the ascending argsort is the stable insertion sort;
the descending result is its reverse. -/
def df_sorted (rows : List TableRow) : List TableRow :=
  (List.insertionSort byCitations rows).reverse

def rowA : TableRow := ⟨"A", "N/A", "N/A", 3, "N/A", "N/A", none⟩

def rowB : TableRow := ⟨"B", "N/A", "N/A", 1, "N/A", "N/A", none⟩

def rowC : TableRow := ⟨"C", "N/A", "N/A", 3, "N/A", "N/A", none⟩

def rowD : TableRow := ⟨"D", "N/A", "N/A", 2, "N/A", "N/A", none⟩

/-- The spec's worked stability example: citation counts 3, 1, 3, 2. -/
def rows4 : List TableRow := [rowA, rowB, rowC, rowD]

/-- The scopus2.py result record (the dict returned by `parse_document` and
saved by `save_to_db`), matching the `documents` table columns. -/
structure DocInfo : Type where
  scopus_id : String
  title : String
  abstract : String
  document_type : String
  source_type : String
  journal : String
  doi : String
  pub_date : String
  citation_count : Int
  author_list : String
  first_author : String
  corresponding_author : String
deriving Repr, DecidableEq

/-- The module-level constant of scopus2.py. -/
def SCOPUS_ID : String := "55734229300"

/-- The corresponding-author scan of scopus2.py lines 38-42: the first
author whose `@correspondence` value equals the literal `'yes'`
(case-sensitively; a missing key compares unequal), named by given name and
surname; the empty string when none matches. -/
def scopus2_corresponding : List Author → String
  | [] => ""
  | a :: rest =>
    if a.correspondence == some "yes" then
      (a.given_name.getD "") ++ " " ++ (a.surname.getD "")
    else scopus2_corresponding rest

/-- `parse_document(data)` (scopus2.py lines 23-57).  The bracket access
`data['abstracts-retrieval-response']` raises `KeyError` when the wrapper
key is missing; every field below it resolves absence via `.get` defaults
(empty string, or 0 for the citation count). -/
def parse_document (data : AbsData) : Except PyErr DocInfo :=
  match data.abstracts_retrieval_response with
  | none => Except.error PyErr.keyError
  | some doc =>
    let cd := doc.coredata.getD emptyCoredata
    let authors := doc.authors_author.getD []
    let author_list := authors.map (fun a => (a.given_name.getD "") ++ " " ++ (a.surname.getD ""))
    Except.ok ⟨SCOPUS_ID, cd.dc_title.getD "", cd.dc_description.getD "",
      cd.subtypeDescription.getD "", cd.aggregationType.getD "",
      cd.publicationName.getD "", cd.doi.getD "", cd.coverDate.getD "",
      cd.citedby_count.getD 0,
      String.intercalate "; " author_list,
      (author_list.head?).getD "",
      scopus2_corresponding authors⟩

/-- SQLite `INSERT OR REPLACE` into a table whose primary key is
`scopus_id`: any existing row with the same key is deleted, then the new
row is inserted. -/
def insert_or_replace (t : List DocInfo) (r : DocInfo) : List DocInfo :=
  t.filter (fun row => !(row.scopus_id == r.scopus_id)) ++ [r]

/-- `save_to_db(doc_info)` (scopus2.py lines 60-99): create the `documents`
table when absent (`none` here, read as the empty table), then
insert-or-replace the record and commit; returns the table contents after
the commit. -/
def save_to_db (db : Option (List DocInfo)) (r : DocInfo) : List DocInfo :=
  insert_or_replace (db.getD []) r

/-- Set-insertion of the truthy `prism:publicationName` of each entry, as in
scopus.py lines 22-25 (the Python set is modelled as a duplicate-free
list). -/
def addJournals (journal_set : List String) (entries : List RawEntry) : List String :=
  entries.foldl
    (fun acc e =>
      match e.publicationName with
      | some j => if j == "" then acc else (if j ∈ acc then acc else acc ++ [j])
      | none => acc)
    journal_set

/-- The `while True` pagination loop of scopus.py lines 13-27: request the
page at `start`, stop as soon as the entry list is empty, otherwise accrue
journals and advance by the constant 25.  Fuel-indexed like `searchLoop`;
returns the journal set and the requested offsets. -/
def scopusLoop (server : Int → List RawEntry) :
    Nat → Int → List String → List Int → Option (List String × List Int)
  | 0, _, _, _ => none
  | fuel + 1, start, journal_set, requested =>
    let entries := server start
    if entries.isEmpty then some (journal_set, requested ++ [start])
    else scopusLoop server fuel (start + 25) (addJournals journal_set entries) (requested ++ [start])

/-- A concrete author whose correspondence flag `@correspondence` holds the
literal token `true`: the claim's case-insensitive match against `'true'`
selects this author, while scopus2.py's comparison against `'yes'` does
not. -/
def cAuthor : Author := ⟨some "G. S.", some "G", some "S", none, some "true"⟩

/-- An abstract response whose only author is `cAuthor`. -/
def docC : AbsData := ⟨some ⟨none, some [cAuthor]⟩⟩

/-- Two writes of the same primary key with different payloads. -/
def docW1 : DocInfo := ⟨"55734229300", "Old title", "", "", "", "", "", "", 0, "", "", ""⟩

def docW2 : DocInfo := ⟨"55734229300", "New title", "", "", "", "", "", "", 7, "", "", ""⟩

/-! Step lemmas for the fuel-indexed pagination loop. -/

theorem searchLoop_stop {α : Type} (server : Int → Except Unit (Page α))
    (f : Nat) (start tcur : Int) (acc : List α) (reqs : List Int)
    (h : ¬ start < tcur) :
    searchLoop server (f + 1) start tcur acc reqs = some (acc, reqs) := by
  simp [searchLoop, h]

theorem searchLoop_err {α : Type} {server : Int → Except Unit (Page α)}
    {f : Nat} {start tcur : Int} {acc : List α} {reqs : List Int}
    (h1 : start < tcur) (h2 : server start = Except.error ()) :
    searchLoop server (f + 1) start tcur acc reqs = some (acc, reqs ++ [start]) := by
  simp [searchLoop, h1, h2]

theorem searchLoop_cont {α : Type} {server : Int → Except Unit (Page α)}
    {f : Nat} {start tcur : Int} {acc : List α} {reqs : List Int} {p : Page α}
    (h1 : start < tcur) (h2 : server start = Except.ok p)
    (h3 : p.startIndex + p.itemsPerPage < p.totalResults) :
    searchLoop server (f + 1) start tcur acc reqs =
      searchLoop server f (start + p.itemsPerPage) p.totalResults
        (acc ++ p.entries) (reqs ++ [start]) := by
  simp [searchLoop, h1, h2, h3]

theorem searchLoop_last {α : Type} {server : Int → Except Unit (Page α)}
    {f : Nat} {start tcur : Int} {acc : List α} {reqs : List Int} {p : Page α}
    (h1 : start < tcur) (h2 : server start = Except.ok p)
    (h3 : ¬ p.startIndex + p.itemsPerPage < p.totalResults) :
    searchLoop server (f + 1) start tcur acc reqs =
      some (acc ++ p.entries, reqs ++ [start]) := by
  simp [searchLoop, h1, h2, h3]

/-- C9: a first page declaring `totalResults = 0` (a consistent page: empty
entry list, nonnegative `startIndex` and `itemsPerPage`) makes
`search_all_documents` return the empty sequence after exactly one request,
the one at offset 0, whatever fuel remains. -/
theorem search_zero_total_one_request {α : Type}
    (server : Int → Except Unit (Page α)) (p : Page α) (sid : String) (f : Nat)
    (hsid : sid ≠ "") (hsrv : server 0 = Except.ok p)
    (hent : p.entries = []) (htot : p.totalResults = 0)
    (hsi : 0 ≤ p.startIndex) (hipp : 0 ≤ p.itemsPerPage) :
    search_all_documents sid server (f + 1) = some ([], [0]) := by
  have hguard : (sid == "") = false := by
    simpa using hsid
  have h3 : ¬ p.startIndex + p.itemsPerPage < p.totalResults := by
    rw [htot]; omega
  rw [search_all_documents, hguard]
  simp only [Bool.false_eq_true, if_false]
  rw [searchLoop_last (by norm_num) hsrv h3, hent]
  simp

/-- C9 witness: a concrete server declaring zero total results is queried
exactly once and yields nothing. -/
theorem search_zero_total_one_request_w :
    search_all_documents "9736051900"
      (fun _ => Except.ok (⟨[], 0, 25, 0⟩ : Page Nat)) 1 = some ([], [0]) :=
  search_zero_total_one_request _ ⟨[], 0, 25, 0⟩ "9736051900" 0
    (by decide) rfl rfl rfl (by decide) (by decide)

/-- C10: for the empty (falsy) author identifier, `search_all_documents`
returns the empty list, `get_author_h_index` returns the placeholder, and
neither issues a single request (the request log is empty, the request
count is 0), whatever the server would have answered. -/
theorem falsy_id_no_requests {α : Type}
    (server : Int → Except Unit (Page α)) (fuel : Nat)
    (hresp : Except Unit HResponse) :
    search_all_documents "" server fuel = some ([], []) ∧
      get_author_h_index "" hresp = ("N/A", 0) :=
  ⟨rfl, rfl⟩

/-- C3 counterexample: a server that answers every offset with an empty
entry list while declaring 100 total results in pages of 25.  The claim
says the loop terminates after the first (empty) response without issuing
another request, i.e. that the request log would be `[0]`; the aggregator
of some.py instead keeps paging and issues four requests. -/
theorem empty_page_continue_cex :
    searchLoop (fun s => Except.ok (⟨[], 100, 25, s⟩ : Page Nat)) 4 0 1 [] [] =
      some ([], [0, 25, 50, 75]) ∧
    ([(0 : Int), 25, 50, 75] : List Int) ≠ [0] := by
  exact ⟨by decide, by decide⟩

/-- C3 (amended): only the scopus.py loop has the defensive stop — it
terminates on any empty entry list without a further request; the
aggregator `search_all_documents` has no such stop: after an empty page it
issues another request whenever the page's `startIndex + itemsPerPage <
totalResults` (second conjunct: the follow-up request at the advanced
offset is observed in the request log), and it terminates on an empty page
only when that inequality fails (third conjunct). -/
theorem empty_page_stop_spec :
    (∀ (server : Int → List RawEntry) (f : Nat) (start : Int)
        (js : List String) (reqs : List Int),
      server start = [] →
        scopusLoop server (f + 1) start js reqs = some (js, reqs ++ [start])) ∧
    (∀ p : Page Nat, p.entries = [] → 0 ≤ p.startIndex → 0 < p.itemsPerPage →
      p.startIndex + p.itemsPerPage < p.totalResults →
        searchLoop (fun s => if s = 0 then Except.ok p else Except.error ()) 2 0 1 [] [] =
          some ([], [0, p.itemsPerPage])) ∧
    (∀ (p : Page Nat) (f : Nat), p.entries = [] →
      ¬ p.startIndex + p.itemsPerPage < p.totalResults →
        searchLoop (fun _ => Except.ok p) (f + 1) 0 1 [] [] = some ([], [0])) := by
  refine ⟨?_, ?_, ?_⟩
  · intro server f start js reqs h
    simp [scopusLoop, h]
  · intro p hent hsi hipp hcont
    have h2 : (fun s => if s = (0 : Int) then Except.ok p else Except.error ()) 0 =
        Except.ok p := by simp
    rw [searchLoop_cont (by norm_num) h2 hcont]
    have hne : ¬ (p.itemsPerPage = (0 : Int)) := by omega
    have h2' : (fun s => if s = (0 : Int) then Except.ok p else Except.error ())
        (0 + p.itemsPerPage) = Except.error () := by simp [hne]
    rw [searchLoop_err (by omega) h2']
    simp [hent]
  · intro p f hent hbr
    rw [searchLoop_last (by norm_num) rfl hbr]
    simp [hent]

/-- C3 witness: the scopus.py loop stops at once on an empty page, and the
aggregator, fed an empty page promising 100 results in pages of 25, issues
a second request at offset 25. -/
theorem empty_page_stop_spec_w :
    scopusLoop (fun _ => []) 1 0 [] [] = some ([], [0]) ∧
    searchLoop
        (fun s => if s = (0 : Int) then Except.ok (⟨[], 100, 25, 0⟩ : Page Nat)
          else Except.error ()) 2 0 1 [] [] =
      some ([], [0, 25]) := by
  constructor
  · exact empty_page_stop_spec.1 (fun _ => []) 0 0 [] [] rfl
  · exact empty_page_stop_spec.2.1 ⟨[], 100, 25, 0⟩ rfl (by decide) (by decide) (by decide)

/-! Arithmetic on page counts. -/

theorem pagesFor_step {n P : Nat} (hP : 0 < P) (h : P < n) :
    pagesFor n P = pagesFor (n - P) P + 1 := by
  have e1 : n + P - 1 = (n - 1) + P := by omega
  have e2 : n - P + P - 1 = n - 1 := by omega
  unfold pagesFor
  rw [e1, Nat.add_div_right _ hP, e2]

theorem pagesFor_last {n P : Nat} (h0 : 0 < n) (hle : n ≤ P) : pagesFor n P = 1 := by
  unfold pagesFor
  exact Nat.div_eq_of_lt_le (by omega) (by omega)

theorem pagesFor_pos {n P : Nat} (hP : 0 < P) (h0 : 0 < n) : 1 ≤ pagesFor n P := by
  unfold pagesFor
  rw [Nat.one_le_div_iff hP]
  omega

/-- Run of the pagination loop against `goodServer` from any offset `m`
already inside the result set: it accrues exactly the remaining entries
`m, ..., T-1` and requests exactly the offsets `m, m+P, ...`, one per
remaining page. -/
theorem goodRun (T P : Nat) (hP : 0 < P) :
    ∀ (f m : Nat) (acc : List Nat) (offs : List Int) (tcur : Int),
      (m : Int) < tcur → m < T → T ≤ m + f →
      searchLoop (goodServer T P) f (m : Int) tcur acc offs =
        some (acc ++ List.range' m (T - m),
          offs ++ (List.range (pagesFor (T - m) P)).map
            (fun i => ((m + i * P : Nat) : Int))) := by
  intro f
  induction f with
  | zero => intro m acc offs tcur h1 h2 h3; omega
  | succ f ih =>
    intro m acc offs tcur h1 h2 h3
    have hsrv : goodServer T P (m : Int) =
        Except.ok ⟨List.range' m (min P (T - m)), (T : Int), (P : Int), (m : Int)⟩ := by
      simp only [goodServer, Int.toNat_natCast]
    by_cases hmp : m + P < T
    · rw [searchLoop_cont h1 hsrv
        (by show ((m : Int) + (P : Int)) < (T : Int); exact_mod_cast hmp)]
      rw [show ((m : Int) + (P : Int)) = ((m + P : Nat) : Int) by push_cast; ring]
      rw [ih (m + P) (acc ++ List.range' m (min P (T - m))) (offs ++ [(m : Int)])
        (T : Int) (by exact_mod_cast hmp) hmp (by omega)]
      have hmin : min P (T - m) = P := Nat.min_eq_left (by omega)
      have hent : (acc ++ List.range' m (min P (T - m))) ++
          List.range' (m + P) (T - (m + P)) = acc ++ List.range' m (T - m) := by
        rw [hmin, List.append_assoc, List.range'_append_1,
          show T - (m + P) + P = T - m by omega]
      have hpf : pagesFor (T - m) P = pagesFor (T - m - P) P + 1 :=
        pagesFor_step hP (by omega)
      have hmap : (List.range (pagesFor (T - m - P) P)).map
          (fun i => ((m + P + i * P : Nat) : Int)) =
          (List.range (pagesFor (T - m - P) P)).map
            ((fun i => ((m + i * P : Nat) : Int)) ∘ Nat.succ) := by
        refine List.map_congr_left ?_
        intro i _
        show ((m + P + i * P : Nat) : Int) = ((m + Nat.succ i * P : Nat) : Int)
        push_cast
        ring
      have hoff : (offs ++ [(m : Int)]) ++
          (List.range (pagesFor (T - (m + P)) P)).map
            (fun i => ((m + P + i * P : Nat) : Int)) =
          offs ++ (List.range (pagesFor (T - m) P)).map
            (fun i => ((m + i * P : Nat) : Int)) := by
        rw [List.append_assoc, show T - (m + P) = T - m - P by omega, hmap, hpf,
          List.range_succ_eq_map, List.map_cons, List.map_map, List.singleton_append]
        simp
      rw [hent, hoff]
    · rw [searchLoop_last h1 hsrv
        (by show ¬ ((m : Int) + (P : Int)) < (T : Int); exact_mod_cast hmp)]
      have hmin : min P (T - m) = T - m := Nat.min_eq_right (by omega)
      have hpf : pagesFor (T - m) P = 1 := pagesFor_last (by omega) (by omega)
      rw [hmin, hpf]
      simp [List.range_succ]

/-- C2 counterexample: a server declaring totalResults = 0 (pages of 25) is
still queried once, so the request count is 1 while the claim's formula
ceil(0/25) = `pagesFor 0 25` demands 0 requests. -/
theorem search_zero_total_cex :
    search_all_documents "9736051900" (goodServer 0 25) 1 = some ([], [0]) ∧
    pagesFor 0 25 = 0 ∧ ([(0 : Int)] : List Int).length ≠ pagesFor 0 25 := by
  exact ⟨by decide, by decide, by decide⟩

/-- C2 (amended): against a consistent server with totalResults `T` and page
size `P > 0` and no errors, `search_all_documents` accumulates exactly the
`T` entries in order and issues its requests exactly at offsets 0, P, 2P,
...; the number of requests is ceil(T/P) when `T > 0` and 1 when `T = 0`
(the first probe is always issued), i.e. `max 1 (pagesFor T P)` in both
cases. -/
theorem search_requests_ceil (T P : Nat) (sid : String) (hP : 0 < P)
    (hsid : sid ≠ "") :
    search_all_documents sid (goodServer T P) (T + 1) =
      some (List.range T,
        (List.range (max 1 (pagesFor T P))).map (fun i => ((i * P : Nat) : Int))) := by
  have hguard : (sid == "") = false := by simpa using hsid
  rw [search_all_documents, hguard]
  simp only [Bool.false_eq_true, if_false]
  rcases Nat.eq_zero_or_pos T with hT | hT
  · subst hT
    have hsrv : goodServer 0 P (0 : Int) =
        Except.ok ⟨[], (0 : Int), (P : Int), (0 : Int)⟩ := by
      simp [goodServer]
    rw [searchLoop_last (by norm_num) hsrv
      (by show ¬ ((0 : Int) + (P : Int)) < ((0 : Nat) : Int); push_cast; omega)]
    have hpf : pagesFor 0 P = 0 := by
      unfold pagesFor
      exact Nat.div_eq_of_lt (by omega)
    simp [hpf, List.range_succ]
  · have hge : 1 ≤ pagesFor T P := pagesFor_pos hP hT
    have h := goodRun T P hP (T + 1) 0 [] [] 1 (by norm_num) hT (by omega)
    simp only [Nat.cast_zero] at h
    rw [h]
    rw [Nat.max_eq_right hge]
    simp [List.range_eq_range']

/-- C2 witness: 30 results in pages of 25 are fetched with two requests at
offsets 0 and 25, yielding all 30 entries. -/
theorem search_requests_ceil_w :
    search_all_documents "9736051900" (goodServer 30 25) 31 =
      some (List.range 30, [0, 25]) := by
  have h := search_requests_ceil 30 25 "9736051900" (by decide) (by decide)
  exact h.trans (by decide)

/-- Run of the pagination loop against a well-behaved server (arbitrary page
contents, correct counters) that fails at offset `E`: starting at offset
`m` with `E` exactly `j` pages ahead, the loop fetches those `j` pages,
hits the error on request `j+1`, and returns the concatenation of the `j`
fetched entry lists with the error absorbed. -/
theorem errRun {α : Type} (ents : Int → List α) (T P : Int) (hP : 0 < P) :
    ∀ (j : Nat) (m E : Int) (acc : List α) (offs : List Int) (tcur : Int),
      m < tcur → E = m + j * P → E < T →
      searchLoop (errServer ents T P E) (j + 1) m tcur acc offs =
        some (acc ++ ((List.range j).map (fun (i : Nat) => ents (m + (i : Int) * P))).flatten,
          offs ++ (List.range (j + 1)).map (fun (i : Nat) => m + (i : Int) * P)) := by
  intro j
  induction j with
  | zero =>
    intro m E acc offs tcur h1 hE hT
    subst hE
    have h2 : errServer ents T P (m + ((0 : Nat) : Int) * P) m = Except.error () := by
      simp [errServer]
    rw [searchLoop_err h1 h2]
    simp [List.range_succ]
  | succ j ih =>
    intro m E acc offs tcur h1 hE hT
    have hj0 : (0 : Int) ≤ (j : Int) * P := mul_nonneg (by positivity) hP.le
    have hstep : (0 : Int) < ((j : Int) + 1) * P := mul_pos (by positivity) hP
    have hmE : m ≠ E := by
      have : m < E := by rw [hE]; push_cast; linarith
      exact ne_of_lt this
    have h2 : errServer ents T P E m = Except.ok ⟨ents m, T, P, m⟩ := by
      rw [errServer, if_neg hmE]; rfl
    have hmPT : m + P < T := by
      have : m + P ≤ E := by rw [hE]; push_cast; linarith
      linarith
    rw [searchLoop_cont h1 h2 (by show m + P < T; exact hmPT)]
    have hE' : E = (m + P) + (j : Int) * P := by rw [hE]; push_cast; ring
    rw [ih (m + P) E (acc ++ ents m) (offs ++ [m]) T hmPT hE' hT]
    have hmap1 : (List.range j).map (fun (i : Nat) => ents (m + P + (i : Int) * P)) =
        (List.range j).map ((fun (i : Nat) => ents (m + (i : Int) * P)) ∘ Nat.succ) := by
      refine List.map_congr_left ?_
      intro i _
      show ents (m + P + (i : Int) * P) = ents (m + ((Nat.succ i : Nat) : Int) * P)
      have : m + P + (i : Int) * P = m + ((Nat.succ i : Nat) : Int) * P := by
        push_cast; ring
      rw [this]
    have hent : (acc ++ ents m) ++
        ((List.range j).map (fun (i : Nat) => ents (m + P + (i : Int) * P))).flatten =
        acc ++ ((List.range (j + 1)).map (fun (i : Nat) => ents (m + (i : Int) * P))).flatten := by
      conv_rhs => rw [List.range_succ_eq_map, List.map_cons, List.map_map, List.flatten_cons]
      rw [hmap1, List.append_assoc]
      simp
    have hmap2 : (List.range (j + 1)).map (fun (i : Nat) => m + P + (i : Int) * P) =
        (List.range (j + 1)).map ((fun (i : Nat) => m + (i : Int) * P) ∘ Nat.succ) := by
      refine List.map_congr_left ?_
      intro i _
      show m + P + (i : Int) * P = m + ((Nat.succ i : Nat) : Int) * P
      push_cast; ring
    have hoff : (offs ++ [m]) ++
        (List.range (j + 1)).map (fun (i : Nat) => m + P + (i : Int) * P) =
        offs ++ (List.range (j + 1 + 1)).map (fun (i : Nat) => m + (i : Int) * P) := by
      conv_rhs => rw [List.range_succ_eq_map, List.map_cons, List.map_map]
      rw [hmap2, List.append_assoc, List.singleton_append]
      simp
    rw [hent, hoff]

/-- C1: if the server serves correct pages at offsets 0, P, ..., (j-1)P and
the request for page j+1 (offset jP, still inside the declared total) fails
with a transport/HTTP error, `search_all_documents` returns normally (the
exception is absorbed) with exactly the concatenation, in order, of the
entry lists of the j successfully fetched pages, and its request log stops
at the failing offset — no further requests are issued. -/
theorem search_error_partial_result {α : Type} (ents : Int → List α)
    (T P : Int) (j : Nat) (sid : String) (hP : 0 < P) (hsid : sid ≠ "")
    (hj : (j : Int) * P < T) :
    search_all_documents sid (errServer ents T P ((j : Int) * P)) (j + 1) =
      some (((List.range j).map (fun (i : Nat) => ents ((i : Int) * P))).flatten,
        (List.range (j + 1)).map (fun (i : Nat) => ((i : Int) * P))) := by
  have hguard : (sid == "") = false := by simpa using hsid
  rw [search_all_documents, hguard]
  simp only [Bool.false_eq_true, if_false]
  have h := errRun ents T P hP j 0 ((j : Int) * P) [] [] 1 (by norm_num)
    (by ring) hj
  rw [h]
  simp

/-- C1 witness: pages of two entries at offsets 0 and 25, then a failure at
offset 50: the caller gets the four entries of the two good pages and the
request log `[0, 25, 50]`. -/
theorem search_error_partial_result_w :
    search_all_documents "9736051900" (errServer (fun _ => ([7, 8] : List Nat)) 100 25 50) 3 =
      some ([7, 8, 7, 8], [0, 25, 50]) := by
  have h := search_error_partial_result (fun _ => ([7, 8] : List Nat)) 100 25 2
    "9736051900" (by decide) (by decide) (by decide)
  exact h.trans (by decide)

/-- C5 counterexample: on the spec's own example batch (counts 3, 1, 3, 2
for rows A, B, C, D) the sink does not produce the stable order
`[A, C, D, B]` the claim demands. -/
theorem df_sorted_stability_cex : df_sorted rows4 ≠ [rowA, rowC, rowD, rowB] := by
  decide

/-- C5 (amended): the displayed sequence is sorted by citation count in
non-increasing order and is a permutation of the batch, but ties do not
keep their original relative order: pandas reverses a stable ascending sort
to get the descending order, so records with equal citation counts come out
in reversed original order — the example batch [A3, B1, C3, D2] yields
[C, A, D, B]. -/
theorem df_sorted_spec :
    (∀ rows : List TableRow,
      (df_sorted rows).Perm rows ∧
        ((df_sorted rows).map TableRow.Citations).Sorted (fun a b => b ≤ a)) ∧
    df_sorted rows4 = [rowC, rowA, rowD, rowB] := by
  constructor
  · intro rows
    constructor
    · exact (List.reverse_perm _).trans (List.perm_insertionSort byCitations rows)
    · have hs : List.Sorted byCitations (List.insertionSort byCitations rows) :=
        List.sorted_insertionSort byCitations rows
      unfold df_sorted
      rw [List.map_reverse]
      refine List.pairwise_reverse.mpr ?_
      refine List.pairwise_map.mpr ?_
      exact hs
  · decide

/-- C6 counterexample: an author whose correspondence flag is the literal
token `true` (which the claim's case-insensitive match selects, so the
claim demands that author's name) is not selected by scopus2.py's
`parse_document`, which compares the flag against `'yes'` and therefore
falls through to its empty-string placeholder rather than either spelling
of the author's name. -/
theorem corresponding_flag_cex :
    (parse_document docC).map DocInfo.corresponding_author = Except.ok "" ∧
    (pyLower (cAuthor.correspondence.getD "") == "true") = true ∧
    ("" : String) ≠ "G S" ∧ ("" : String) ≠ "G. S." := by
  refine ⟨rfl, rfl, by decide, by decide⟩

/-- C6 (amended): the two normalizers use different conventions.  In the
app (some.py) the corresponding author is the `ce:indexed-name` (default
placeholder) of the first author in list order whose `@corresponding`
flag, lowercased, equals `'true'`, and the placeholder when none matches;
in the database script (scopus2.py) it is the given-name-plus-surname of
the first author whose `@correspondence` flag equals the literal `'yes'`
(case-sensitively), and the empty string when none matches. -/
theorem corresponding_flag_spec :
    (∀ authors : List Author, corresponding_author_of authors =
      (match authors.find? (fun a => pyLower (a.corresponding.getD "") == "true") with
       | some a => a.indexed_name.getD "N/A"
       | none => "N/A")) ∧
    (∀ authors : List Author, scopus2_corresponding authors =
      (match authors.find? (fun a => a.correspondence == some "yes") with
       | some a => (a.given_name.getD "") ++ " " ++ (a.surname.getD "")
       | none => "")) := by
  constructor
  · intro authors
    induction authors with
    | nil => rfl
    | cons a rest ih =>
      cases hc : (pyLower (a.corresponding.getD "") == "true") <;>
        simp [corresponding_author_of, List.find?, hc, ih]
  · intro authors
    induction authors with
    | nil => rfl
    | cons a rest ih =>
      cases hc : (a.correspondence == some "yes") <;>
        simp [scopus2_corresponding, List.find?, hc, ih]

/-- Helper for the keyed upsert: after an insert-or-replace of `r`, the rows
matching `r`'s key are exactly `[r]`, whatever the table held before. -/
theorem filter_insert_or_replace (t : List DocInfo) (r : DocInfo) :
    (insert_or_replace t r).filter (fun row => row.scopus_id == r.scopus_id) = [r] := by
  induction t with
  | nil => simp [insert_or_replace]
  | cons a t ih =>
    cases hab : (a.scopus_id == r.scopus_id) <;>
      simp_all [insert_or_replace, List.filter_cons, List.filter_append]

/-- C7: the durable sink's keyed write is idempotent — after writing `r1`
and then `r2` with the same `scopus_id` (in particular the same record
twice), the `documents` table holds exactly one row for that id, and it
carries the values of the latest write. -/
theorem save_to_db_idempotent (db : Option (List DocInfo)) (r1 r2 : DocInfo)
    (h : r1.scopus_id = r2.scopus_id) :
    (save_to_db (some (save_to_db db r1)) r2).filter
      (fun row => row.scopus_id == r1.scopus_id) = [r2] := by
  unfold save_to_db
  rw [h]
  simpa using filter_insert_or_replace (insert_or_replace (db.getD []) r1) r2

/-- C7 witness: writing two payloads under the same id into a fresh store
leaves exactly the second payload's row. -/
theorem save_to_db_idempotent_w :
    (save_to_db (some (save_to_db none docW1)) docW2).filter
      (fun row => row.scopus_id == docW1.scopus_id) = [docW2] :=
  save_to_db_idempotent none docW1 docW2 rfl

/-- C8 counterexample: a response whose body is valid JSON but not an
object (e.g. a top-level array).  The claim says any failure yields the
empty detail record; the source's `.json().get(...)` instead raises an
uncaught `AttributeError`, which propagates to the caller's batch. -/
theorem abstract_details_nonobject_cex :
    get_abstract_details "2-s2.0-0037368024" FetchOutcome.nonObject =
      Except.error PyErr.attributeError ∧
    (Except.error PyErr.attributeError : Except PyErr DetailRecord) ≠
      Except.ok emptyDetail := by
  exact ⟨rfl, fun h => Except.noConfusion h⟩

/-- C8 (amended): `get_abstract_details` absorbs transport/HTTP errors,
timeouts and invalid-JSON bodies — all of them are
`requests.exceptions.RequestException`s, caught and converted to the empty
detail record with a non-fatal warning, so the caller's batch continues —
but a body that is valid JSON with a non-object top level makes it raise an
uncaught `AttributeError`; for every other outcome it returns normally. -/
theorem abstract_details_absorbs :
    (∀ eid : String,
      get_abstract_details eid FetchOutcome.reqError = Except.ok emptyDetail) ∧
    (∀ eid : String,
      get_abstract_details eid FetchOutcome.jsonError = Except.ok emptyDetail) ∧
    (∀ (eid : String) (resp : FetchOutcome), resp ≠ FetchOutcome.nonObject →
      ∃ d, get_abstract_details eid resp = Except.ok d) := by
  refine ⟨?_, ?_, ?_⟩
  · intro eid
    by_cases h : (eid == "") = true <;> simp [get_abstract_details, h]
  · intro eid
    by_cases h : (eid == "") = true <;> simp [get_abstract_details, h]
  · intro eid resp hne
    by_cases h : (eid == "") = true
    · exact ⟨emptyDetail, by simp [get_abstract_details, h]⟩
    · cases resp with
      | reqError => exact ⟨emptyDetail, by simp [get_abstract_details, h]⟩
      | jsonError => exact ⟨emptyDetail, by simp [get_abstract_details, h]⟩
      | nonObject => exact absurd rfl hne
      | object data =>
        exact ⟨data.abstracts_retrieval_response.getD emptyDetail,
          by simp [get_abstract_details, h]⟩

/-- C8 witness: a concrete eid with a failed request still gets a normal
(empty) detail record back. -/
theorem abstract_details_absorbs_w :
    ∃ d, get_abstract_details "2-s2.0-0037368024" FetchOutcome.reqError =
      Except.ok d :=
  abstract_details_absorbs.2.2 "2-s2.0-0037368024" FetchOutcome.reqError (by decide)

/-- C4: evaluation of the normalization loop body at the claim's own edge
cases.  First conjunct: on the empty raw entry (no eid) with the empty
detail record — the very input the claim covers — the source raises
`NameError`, because `author_names_list` is assigned only inside `if eid:`
yet read when the record is built; so normalization is not total and the
claim's "never raises" fails on the code.  Second conjunct: a present but
non-numeric `citedby-count` value makes `int(cited_by)` raise
`ValueError` first. -/
theorem normalize_entry_raises :
    normalize_entry none emptyRawEntry emptyDetail = Except.error PyErr.nameError ∧
    normalize_entry none
        ⟨none, none, none, none, none, none, some "N/A", none, none⟩ emptyDetail =
      Except.error PyErr.valueError := by
  exact ⟨rfl, rfl⟩
